import Mathlib

/-!
# Verification of the deep-research orchestration engine

Shallow embedding of the research pipeline of `backend/app` (the LangGraph
graph in `agents/graph_builder.py`, the stage nodes in `agents/nodes.py`, the
tool layer in `agents/tools.py`, and the web scraper in
`scrapers/web_scraper.py`).

Modelling conventions:
* The dynamically typed `ResearchState` `TypedDict` is embedded as a record.
  `run_research` initialises every field it later reads, so the defensive
  `state.get(key, default)` accesses always find the key and are embedded as
  plain field reads.
* Provider adapters (Tavily search, YARS Reddit, the Azure OpenAI client
  methods, `httpx` page fetches, `json.loads` of LLM output) are external
  collaborators; they are parameters (`Oracles`).  An adapter call that can
  raise is modelled as `Except String α` where `.error` is the raised
  message of the exception; an LLM call whose JSON output may fail to parse yields
  `Option` of the parsed structure (`none` = parse failure), keeping the
  source's fallback logic in the embedding.
* `asyncio.gather(..., return_exceptions=True)` joins a batch positionally;
  it is embedded as the list of the individual `Except` results in task order.
-/

/-- Research configuration dict (`config` in `run_research`); field defaults
are the `config.get(key, default)` defaults used at the call sites. -/
structure ResearchConfig where
  max_iterations : Nat := 3
  include_reddit : Bool := true
  subreddits : List String := []
  time_filter : String := "month"
  max_web_results : Nat := 15
  max_reddit_posts : Nat := 50
  deriving Repr, DecidableEq

/-- A web search result (only the fields the pipeline reads). -/
structure WebResult where
  title : String := ""
  url : String := ""
  snippet : String := ""
  deriving Repr, DecidableEq

/-- A Reddit post (fields read by `content_scraper`/`content_analyzer`). -/
structure RedditPost where
  title : String := ""
  body : String := ""
  url : String := ""
  num_comments : Nat := 0
  deriving Repr, DecidableEq

/-- A Reddit comment (fields read by the analysis stages). -/
structure RedditComment where
  body : String := ""
  score : Int := 0
  deriving Repr, DecidableEq

/-- A discovered subreddit record (`get_subreddit_recommendations` result). -/
structure SubredditInfo where
  name : String := ""
  deriving Repr, DecidableEq

/-- Result dict of `WebScraper.scrape_url` / `WebScraper._empty_result`. -/
structure ScrapedContent where
  url : String := ""
  title : String := ""
  author : Option String := none
  published_date : Option String := none
  domain : String := ""
  content : String := ""
  content_length : Nat := 0
  success : Bool := true
  error : Option String := none
  deriving Repr, DecidableEq

/-- A Reddit thread bundle (`get_post_with_comments` result); `post := none`
models a falsy/absent `post` key, which `content_scraper` filters out. -/
structure ThreadData where
  post : Option RedditPost := none
  comments : List RedditComment := []
  total_comments : Nat := 0
  deriving Repr, DecidableEq

/-- A per-item summary dict built by `content_analyzer`; `num_comments` is
only present on Reddit summaries and defaults to 0 elsewhere. -/
structure Summary where
  title : String := ""
  url : String := ""
  summary : String := ""
  source_type : String := ""
  num_comments : Nat := 0
  deriving Repr, DecidableEq

/-- Community consensus record.  The source builds it as a dict that may lack
the last two keys; downstream reads only use `sentiment`, `agreement_level`
and `themes`, so absent keys are modelled by the defaults shown here. -/
structure Consensus where
  sentiment : String := "neutral"
  agreement_level : String := "unknown"
  themes : List String := []
  majority_opinion : String := ""
  minority_opinions : List String := []
  deriving Repr, DecidableEq

/-- Cross-reference record parsed from the LLM (or its documented default). -/
structure CrossRef where
  corroborated_facts : List String := []
  contradictions : List String := []
  unique_insights : List String := []
  overall_confidence : String := "medium"
  deriving Repr, DecidableEq

/-- A flattened citation entry built by `synthesis_generator`. -/
structure Source where
  type : String := ""
  title : String := ""
  url : String := ""
  deriving Repr, DecidableEq

/-- An extracted expert-opinion record. -/
structure ExpertOpinion where
  insight : String := ""
  expertise_indicator : String := ""
  argument : String := ""
  deriving Repr, DecidableEq

/-- The research plan parsed from the planner LLM call (or its fallback). -/
structure ResearchPlan where
  search_keywords : List String := []
  needs_reddit : Bool := true
  suggested_subreddits : List String := []
  sub_questions : List String := []
  research_approach : String := ""
  deriving Repr, DecidableEq

/-- The `confidence_scores` dict assembled by `synthesis_generator`. -/
structure ConfidenceScores where
  overall : String := ""
  web_sources : Nat := 0
  reddit_sources : Nat := 0
  corroboration : Nat := 0
  deriving Repr, DecidableEq

/-- The `ResearchState` TypedDict threaded through every node.  Fields are
total because `run_research` initialises all of them (`cross_reference` and
`research_plan` start as the empty dict / absent and are modelled as
`Option`; `community_consensus` starts as `{}` whose only downstream reads
use the same defaults as the `Consensus` record). -/
structure ResearchState where
  query : String := ""
  research_config : ResearchConfig := {}
  max_iterations : Nat := 3
  iteration : Nat := 0
  research_complete : Bool := false
  errors : List String := []
  web_results : List WebResult := []
  reddit_posts : List RedditPost := []
  reddit_comments : List RedditComment := []
  reddit_threads : List ThreadData := []
  scraped_web_content : List ScrapedContent := []
  web_summaries : List Summary := []
  reddit_summaries : List Summary := []
  expert_opinions : List ExpertOpinion := []
  community_consensus : Consensus := {}
  cross_reference : Option CrossRef := none
  corroborated_facts : List String := []
  contradictions : List String := []
  sources : List Source := []
  confidence_scores : ConfidenceScores := {}
  final_synthesis : String := ""
  search_keywords : List String := []
  relevant_subreddits : List String := []
  research_plan : Option ResearchPlan := none
  identified_gaps : List String := []
  refinement_queries : List String := []
  deriving Repr, DecidableEq

/-- The initial state dict literal of `run_research` (`graph_builder.py`). -/
def mkInitialState (query : String) (config : ResearchConfig) : ResearchState :=
  { query := query
    research_config := config
    max_iterations := config.max_iterations
    iteration := 0
    research_complete := false
    errors := []
    web_results := []
    reddit_posts := []
    reddit_comments := []
    reddit_threads := []
    scraped_web_content := []
    web_summaries := []
    reddit_summaries := []
    expert_opinions := []
    community_consensus := {}
    cross_reference := none
    corroborated_facts := []
    contradictions := []
    sources := []
    confidence_scores := {}
    final_synthesis := ""
    search_keywords := []
    relevant_subreddits := []
    research_plan := none
    identified_gaps := []
    refinement_queries := [] }

/-- External adapter calls consumed by the pipeline (cf. spec §6).  Each LLM
oracle stands for one `chat_completion` invocation (plus, where the source
parses its output, the `json.loads` step: `.ok none` = parse failure). -/
structure Oracles where
  planChat : String → Except String (Option ResearchPlan)
  webSearch : String → Nat → Except String (List WebResult)
  redditPostSearch : String → Option (List String) → Nat → String →
    Except String (List RedditPost)
  redditCommentSearch : String → Nat → Except String (List RedditComment)
  discoverSubreddits : String → Nat → Except String (List SubredditInfo)
  netloc : String → String
  scrapeUrl : String → Except String ScrapedContent
  analyzeThread : String → Nat → Except String ThreadData
  summarizeChat : String → Except String String
  consensusChat : String → Except String (Option Consensus)
  extractExpertOpinions : List RedditComment → Except String (List ExpertOpinion)
  crossRefChat : String → String → Except String (Option CrossRef)
  comprehensiveSynthesis : String → List Summary → List Summary → Consensus →
    List Source → Except String String
  analyzeGaps : String → String → List String → Except String (List String)

/-- `WebScraper._empty_result`: the failure record for one URL. -/
def emptyResult (netloc : String → String) (url : String) (error : String) :
    ScrapedContent :=
  { url := url
    title := ""
    author := none
    published_date := none
    domain := netloc url
    content := ""
    content_length := 0
    success := false
    error := some error }

/-- `WebScraper.scrape_multiple`: one fetch per URL, joined positionally; a
task that raised is replaced by `_empty_result(urls[i], str(e))`. -/
def scrape_multiple (netloc : String → String)
    (scrape_url : String → Except String ScrapedContent)
    (urls : List String) : List ScrapedContent :=
  urls.map fun u =>
    match scrape_url u with
    | .ok r => r
    | .error e => emptyResult netloc u e

/-- `ResearchTools.scrape_urls`: scrape then keep only successful results. -/
def scrape_urls_tool (o : Oracles) (urls : List String) : List ScrapedContent :=
  (scrape_multiple o.netloc o.scrapeUrl urls).filter (·.success)

/-- Unpacking of one `asyncio.gather(..., return_exceptions=True)` slot in
`multi_source_searcher`: `results[i] if not isinstance(results[i], Exception)
else []`. -/
def exceptToList {α : Type} : Except String (List α) → List α
  | .ok l => l
  | .error _ => []

/-- The keyword Retrieval actually queries the web-search adapter with:
`keywords[0] if keywords else query` in `multi_source_searcher`. -/
def primary_keyword (s : ResearchState) : String :=
  s.search_keywords.headD s.query

/-- Node 2, `ResearchNodes.multi_source_searcher`: fans out web search plus
(when Reddit is enabled) post search, comment search and — only when no
subreddits are known — subreddit discovery; a raising task degrades its slot
to the empty list.  The `errors` field is left untouched, as in the source. -/
def multi_source_searcher (o : Oracles) (s : ResearchState) : ResearchState :=
  let config := s.research_config
  let subreddits := s.relevant_subreddits
  let r_web := o.webSearch (primary_keyword s) config.max_web_results
  let r_posts :=
    if config.include_reddit then
      o.redditPostSearch s.query
        (if subreddits.isEmpty then none else some subreddits)
        config.max_reddit_posts config.time_filter
    else .ok []
  let r_comments :=
    if config.include_reddit then o.redditCommentSearch s.query 30 else .ok []
  let r_subs :=
    if config.include_reddit && subreddits.isEmpty then
      o.discoverSubreddits s.query 5
    else .ok []
  let web_results := exceptToList r_web
  let reddit_posts := exceptToList r_posts
  let reddit_comments := exceptToList r_comments
  let discovered_subs := exceptToList r_subs
  { s with
    web_results := web_results
    reddit_posts := reddit_posts
    reddit_comments := reddit_comments
    relevant_subreddits :=
      if !discovered_subs.isEmpty && subreddits.isEmpty then
        (discovered_subs.take 5).map (·.name)
      else s.relevant_subreddits }

/-- Node 8, `ResearchNodes.quality_checker`: sets `research_complete` from
the iteration cap and the three quality criteria. -/
def quality_checker (s : ResearchState) : ResearchState :=
  let has_sufficient_sources := decide (3 ≤ s.web_summaries.length)
  let has_diverse_sources :=
    decide (0 < s.web_summaries.length) && decide (0 < s.reddit_summaries.length)
  let has_content := decide (500 < s.final_synthesis.length)
  if s.max_iterations ≤ s.iteration then
    { s with research_complete := true }
  else if has_sufficient_sources && has_diverse_sources && has_content then
    { s with research_complete := true }
  else
    { s with research_complete := false }

/-- Conditional-edge function `should_continue_research` (`graph_builder.py`):
the pure continuation decision, returning the routing string. -/
def should_continue_research (s : ResearchState) : String :=
  if s.research_complete then "end"
  else if s.max_iterations ≤ s.iteration then "end"
  else "continue"

/-- Node 1, `ResearchNodes.query_planner`: one planning LLM call (a raise
propagates out of the node); on JSON-parse failure the fallback plan literal
is used.  `state["iteration"] = state.get("iteration", 0)` is the identity
here because the field is always initialised. -/
def query_planner (o : Oracles) (s : ResearchState) :
    Except String ResearchState :=
  match o.planChat s.query with
  | .error e => .error e
  | .ok parsed =>
    let config := s.research_config
    let research_plan :=
      match parsed with
      | some p => p
      | none =>
        { search_keywords := [s.query]
          needs_reddit := config.include_reddit
          suggested_subreddits := config.subreddits
          sub_questions := [s.query]
          research_approach := "comprehensive web and community search" }
    .ok { s with
      research_plan := some research_plan
      search_keywords := research_plan.search_keywords
      relevant_subreddits :=
        if config.subreddits.isEmpty then research_plan.suggested_subreddits
        else config.subreddits
      iteration := s.iteration }

/-- Node 3, `ResearchNodes.content_scraper`: one `scrape_urls` batch task for
the top-10 web URLs (when any) plus one `analyze_reddit_thread` task per
qualifying Reddit post, gathered with `return_exceptions=True`.
`results[1:]` drops the first task, so when the web-scrape task is absent the
the result of the first thread task never lands in `reddit_threads`; in that case the
source's `results[0]` unpacking also places a thread dict in the page-content
slot, an ill-typed value (the attribute access in the analyzer would fail on it)
that the typed state renders as the empty list. -/
def content_scraper (o : Oracles) (s : ResearchState) : ResearchState :=
  let web_urls := ((s.web_results.take 10).map (·.url)).filter (· != "")
  let reddit_urls :=
    ((s.reddit_posts.take 5).filter
      (fun p => p.url != "" && decide (10 < p.num_comments))).map (·.url)
  let thread_results := reddit_urls.map (fun url => o.analyzeThread url 50)
  let scraped_web :=
    if web_urls.isEmpty then [] else scrape_urls_tool o web_urls
  let thread_slots :=
    if web_urls.isEmpty then thread_results.drop 1 else thread_results
  let reddit_threads :=
    (thread_slots.filterMap Except.toOption).filter (fun t => t.post.isSome)
  { s with
    scraped_web_content := scraped_web
    reddit_threads := reddit_threads }

/-- The combined post-plus-comments text summarised for one Reddit thread. -/
def thread_text (t : ThreadData) : String :=
  ((t.post.map (·.title)).getD "") ++ "\n" ++ ((t.post.map (·.body)).getD "")
    ++ "\n\nTop Comments:\n"
    ++ String.intercalate "\n" ((t.comments.take 10).map (fun c => c.body.take 500))

/-- One step of the result loop of `content_analyzer`: `(i, summary)` is one
enumerated gather result; exceptions are skipped, indices below `web_count`
are looked up in the (unfiltered) `scraped_web` list, the rest in
`reddit_threads` after the explicit bounds check. -/
def analyzer_step (scraped_web : List ScrapedContent)
    (reddit_threads : List ThreadData) (web_count : Nat)
    (acc : List Summary × List Summary) (p : Nat × Except String String) :
    List Summary × List Summary :=
  match p.2 with
  | .error _ => acc
  | .ok sum =>
    if p.1 < web_count then
      let src := scraped_web.getD p.1 {}
      (acc.1 ++ [{ title := src.title, url := src.url, summary := sum,
                   source_type := "web" }], acc.2)
    else
      match reddit_threads[p.1 - web_count]? with
      | some thread =>
        (acc.1, acc.2 ++ [{ title := (thread.post.map (·.title)).getD ""
                            url := (thread.post.map (·.url)).getD ""
                            summary := sum
                            source_type := "reddit"
                            num_comments := thread.total_comments }])
      | none => acc

/-- Node 4, `ResearchNodes.content_analyzer`: one summarisation task per
scraped page with non-empty content plus one per Reddit thread, gathered
positionally; the result loop indexes the *unfiltered* `scraped_web` list
with the task index. -/
def content_analyzer (o : Oracles) (s : ResearchState) : ResearchState :=
  let scraped_web := s.scraped_web_content
  let reddit_threads := s.reddit_threads
  let web_summary_results :=
    (scraped_web.filter (fun c => c.content != "")).map
      (fun c => o.summarizeChat c.content)
  let reddit_summary_results :=
    reddit_threads.map (fun t => o.summarizeChat (thread_text t))
  let all_results := web_summary_results ++ reddit_summary_results
  if all_results.isEmpty then
    { s with web_summaries := [], reddit_summaries := [] }
  else
    let web_count := web_summary_results.length
    let pair := all_results.enum.foldl
      (analyzer_step scraped_web reddit_threads web_count) ([], [])
    { s with web_summaries := pair.1, reddit_summaries := pair.2 }

/-- `ResearchTools.build_consensus`, instrumented with the number of
`chat_completion` calls it issues: empty input returns the neutral default
before any call; otherwise exactly one call is made, with the documented
fallback when its output does not parse. -/
def build_consensus (consensusChat : String → Except String (Option Consensus))
    (reddit_summaries : List Summary) : Except String (Consensus × Nat) :=
  if reddit_summaries.isEmpty then
    .ok ({ sentiment := "neutral", agreement_level := "unknown", themes := []
           majority_opinion := "", minority_opinions := [] }, 0)
  else
    let combined_text := String.intercalate "\n\n---\n\n"
      (reddit_summaries.map (fun s => s.title ++ "\n" ++ s.summary))
    match consensusChat combined_text with
    | .error e => .error e
    | .ok (some consensus) => .ok (consensus, 1)
    | .ok none =>
      .ok ({ sentiment := "neutral", agreement_level := "unknown", themes := []
             majority_opinion := "Unable to determine consensus"
             minority_opinions := [] }, 1)

/-- Node 5, `ResearchNodes.consensus_builder`: short-circuits to a neutral
default when there is no Reddit material at all; otherwise builds consensus
and extracts expert opinions (a raise from either call propagates). -/
def consensus_builder (o : Oracles) (s : ResearchState) :
    Except String ResearchState :=
  if s.reddit_summaries.isEmpty && s.reddit_comments.isEmpty then
    .ok { s with community_consensus :=
      { sentiment := "neutral", agreement_level := "unknown", themes := [] } }
  else
    match build_consensus o.consensusChat s.reddit_summaries with
    | .error e => .error e
    | .ok (consensus, _) =>
      match o.extractExpertOpinions s.reddit_comments with
      | .error e => .error e
      | .ok experts =>
        .ok { s with community_consensus := consensus
                     expert_opinions := experts }

/-- `ResearchTools.cross_reference`: builds the two context texts, issues one
LLM call (raise propagates) and substitutes the documented default on parse
failure. -/
def cross_reference_tool (o : Oracles)
    (web_summaries reddit_summaries : List Summary) : Except String CrossRef :=
  let web_text := String.intercalate "\n\n"
    (web_summaries.map (fun s => "[Web] " ++ s.summary))
  let reddit_text := String.intercalate "\n\n"
    (reddit_summaries.map (fun s => "[Reddit] " ++ s.summary))
  match o.crossRefChat web_text reddit_text with
  | .error e => .error e
  | .ok (some cr) => .ok cr
  | .ok none =>
    .ok { corroborated_facts := [], contradictions := []
          unique_insights := [], overall_confidence := "medium" }

/-- Node 6, `ResearchNodes.cross_reference_validator`. -/
def cross_reference_validator (o : Oracles) (s : ResearchState) :
    Except String ResearchState :=
  if s.web_summaries.isEmpty && s.reddit_summaries.isEmpty then
    .ok { s with cross_reference := none }
  else
    match cross_reference_tool o s.web_summaries s.reddit_summaries with
    | .error e => .error e
    | .ok cr =>
      .ok { s with cross_reference := some cr
                   corroborated_facts := cr.corroborated_facts
                   contradictions := cr.contradictions }

/-- Node 7, `ResearchNodes.synthesis_generator`: flattens the citation list
(web summaries first, then Reddit), issues the single synthesis call (a raise
propagates out of the node) and records the report and confidence scores.
The returned report string is stored as-is — it is not checked for
emptiness. -/
def synthesis_generator (o : Oracles) (s : ResearchState) :
    Except String ResearchState :=
  let sources :=
    s.web_summaries.map
      (fun ws => { type := "web", title := ws.title, url := ws.url : Source })
    ++ s.reddit_summaries.map
      (fun rs => { type := "reddit", title := rs.title, url := rs.url : Source })
  match o.comprehensiveSynthesis s.query s.web_summaries s.reddit_summaries
      s.community_consensus sources with
  | .error e => .error e
  | .ok synthesis =>
    .ok { s with
      final_synthesis := synthesis
      sources := sources
      confidence_scores :=
        { overall := ((s.cross_reference.map (·.overall_confidence)).getD "medium")
          web_sources := s.web_summaries.length
          reddit_sources := s.reddit_summaries.length
          corroboration := s.corroborated_facts.length } }

/-- Node 9, `ResearchNodes.gap_filler`: one gap-analysis LLM call (a raise
propagates); stores the gaps in `identified_gaps` and `refinement_queries`
and increments `iteration`.  It does not touch `search_keywords`. -/
def gap_filler (o : Oracles) (s : ResearchState) : Except String ResearchState :=
  let sources := s.sources.map (·.title)
  match o.analyzeGaps s.query s.final_synthesis sources with
  | .error e => .error e
  | .ok gaps =>
    .ok { s with identified_gaps := gaps
                 refinement_queries := gaps
                 iteration := s.iteration + 1 }

/-- One full round (spec glossary: Retrieval → … → Quality Gate), i.e. the
graph path `multi_source_searcher → content_scraper → content_analyzer →
consensus_builder → cross_reference → synthesis → quality_checker`. -/
def roundBody (o : Oracles) (s : ResearchState) : Except String ResearchState :=
  let s1 := multi_source_searcher o s
  let s2 := content_scraper o s1
  let s3 := content_analyzer o s2
  match consensus_builder o s3 with
  | .error e => .error e
  | .ok s4 =>
    match cross_reference_validator o s4 with
    | .error e => .error e
    | .ok s5 =>
      match synthesis_generator o s5 with
      | .error e => .error e
      | .ok s6 => .ok (quality_checker s6)

theorem multi_source_searcher_control (o : Oracles) (s : ResearchState) :
    (multi_source_searcher o s).iteration = s.iteration ∧
      (multi_source_searcher o s).max_iterations = s.max_iterations :=
  ⟨rfl, rfl⟩

theorem content_scraper_control (o : Oracles) (s : ResearchState) :
    (content_scraper o s).iteration = s.iteration ∧
      (content_scraper o s).max_iterations = s.max_iterations :=
  ⟨rfl, rfl⟩

theorem content_analyzer_control (o : Oracles) (s : ResearchState) :
    (content_analyzer o s).iteration = s.iteration ∧
      (content_analyzer o s).max_iterations = s.max_iterations := by
  simp only [content_analyzer]
  split <;> exact ⟨rfl, rfl⟩

theorem quality_checker_control (s : ResearchState) :
    (quality_checker s).iteration = s.iteration ∧
      (quality_checker s).max_iterations = s.max_iterations := by
  simp only [quality_checker]
  split
  · exact ⟨rfl, rfl⟩
  · split <;> exact ⟨rfl, rfl⟩

theorem consensus_builder_control {o : Oracles} {s s' : ResearchState}
    (h : consensus_builder o s = .ok s') :
    s'.iteration = s.iteration ∧ s'.max_iterations = s.max_iterations := by
  simp only [consensus_builder] at h
  split at h
  · injection h with h
    subst h
    exact ⟨rfl, rfl⟩
  · split at h
    · exact Except.noConfusion h
    · split at h
      · exact Except.noConfusion h
      · injection h with h
        subst h
        exact ⟨rfl, rfl⟩

theorem cross_reference_validator_control {o : Oracles} {s s' : ResearchState}
    (h : cross_reference_validator o s = .ok s') :
    s'.iteration = s.iteration ∧ s'.max_iterations = s.max_iterations := by
  simp only [cross_reference_validator] at h
  split at h
  · injection h with h
    subst h
    exact ⟨rfl, rfl⟩
  · split at h
    · exact Except.noConfusion h
    · injection h with h
      subst h
      exact ⟨rfl, rfl⟩

theorem synthesis_generator_control {o : Oracles} {s s' : ResearchState}
    (h : synthesis_generator o s = .ok s') :
    s'.iteration = s.iteration ∧ s'.max_iterations = s.max_iterations := by
  simp only [synthesis_generator] at h
  split at h
  · exact Except.noConfusion h
  · injection h with h
    subst h
    exact ⟨rfl, rfl⟩

theorem gap_filler_control {o : Oracles} {s s' : ResearchState}
    (h : gap_filler o s = .ok s') :
    s'.iteration = s.iteration + 1 ∧ s'.max_iterations = s.max_iterations := by
  simp only [gap_filler] at h
  split at h
  · exact Except.noConfusion h
  · injection h with h
    subst h
    exact ⟨rfl, rfl⟩

theorem roundBody_control {o : Oracles} {s s' : ResearchState}
    (h : roundBody o s = .ok s') :
    s'.iteration = s.iteration ∧ s'.max_iterations = s.max_iterations := by
  simp only [roundBody] at h
  split at h
  · exact Except.noConfusion h
  · rename_i s4 hcb
    split at h
    · exact Except.noConfusion h
    · rename_i s5 hcr
      split at h
      · exact Except.noConfusion h
      · rename_i s6 hsg
        injection h with h
        subst h
        have h1 := multi_source_searcher_control o s
        have h2 := content_scraper_control o (multi_source_searcher o s)
        have h3 := content_analyzer_control o
          (content_scraper o (multi_source_searcher o s))
        have h4 := consensus_builder_control hcb
        have h5 := cross_reference_validator_control hcr
        have h6 := synthesis_generator_control hsg
        have h7 := quality_checker_control s6
        omega

theorem should_continue_iff (s : ResearchState) :
    should_continue_research s = "continue" ↔
      s.research_complete = false ∧ s.iteration < s.max_iterations := by
  constructor
  · intro h
    unfold should_continue_research at h
    by_cases hb : s.research_complete = true
    · rw [if_pos hb] at h
      exact absurd h (by decide)
    · rw [if_neg hb] at h
      by_cases hi : s.max_iterations ≤ s.iteration
      · rw [if_pos hi] at h
        exact absurd h (by decide)
      · rw [if_neg hi] at h
        exact ⟨Bool.eq_false_iff.mpr hb, by omega⟩
  · rintro ⟨hb, hi⟩
    unfold should_continue_research
    rw [if_neg (by simp [hb]), if_neg (by omega)]

/-- The feedback loop of the graph, entered after `query_planner`: run one round;
if the conditional edge routes to `"continue"`, run `gap_filler` and loop
back to Retrieval, otherwise stop.  Returns the final state together with the
number of completed rounds.  Termination rests on the iteration counter:
the loop continues only while `iteration < max_iterations`, and `gap_filler`
increments `iteration`. -/
def runLoop (o : Oracles) (s : ResearchState) :
    Except String (ResearchState × Nat) :=
  match hr : roundBody o s with
  | .error e => .error e
  | .ok s1 =>
    if hc : should_continue_research s1 = "continue" then
      match hg : gap_filler o s1 with
      | .error e => .error e
      | .ok s2 =>
        match runLoop o s2 with
        | .error e => .error e
        | .ok (sf, n) => .ok (sf, n + 1)
    else .ok (s1, 1)
termination_by s.max_iterations + 1 - s.iteration
decreasing_by
  have h1 := roundBody_control hr
  have h2 := gap_filler_control hg
  have h3 := (should_continue_iff s1).mp hc
  omega

/-- `run_research` (`graph_builder.py`): build the initial state, run the
planner once, then the round loop; any raise propagates to the caller. -/
def run_research (o : Oracles) (query : String) (config : ResearchConfig) :
    Except String (ResearchState × Nat) :=
  match query_planner o (mkInitialState query config) with
  | .error e => .error e
  | .ok s1 => runLoop o s1

/-- Positions in the research graph (`build_research_graph`). -/
inductive Node where
  | planner | searcher | scraper | analyzer | consensus | crossref
  | synthesis | quality | gapfiller | done
  deriving Repr, DecidableEq

/-- Small-step semantics of the compiled graph: one constructor per edge of
`build_research_graph`, including the conditional edge out of the quality
checker (`"continue" ↦ gap_filler`, `"end" ↦ END`) and the back-edge
`gap_filler → multi_source_searcher`. -/
inductive Step (o : Oracles) : Node × ResearchState → Node × ResearchState → Prop
  | planner {s s'} : query_planner o s = .ok s' →
      Step o (.planner, s) (.searcher, s')
  | searcher {s} : Step o (.searcher, s) (.scraper, multi_source_searcher o s)
  | scraper {s} : Step o (.scraper, s) (.analyzer, content_scraper o s)
  | analyzer {s} : Step o (.analyzer, s) (.consensus, content_analyzer o s)
  | consensus {s s'} : consensus_builder o s = .ok s' →
      Step o (.consensus, s) (.crossref, s')
  | crossref {s s'} : cross_reference_validator o s = .ok s' →
      Step o (.crossref, s) (.synthesis, s')
  | synthesis {s s'} : synthesis_generator o s = .ok s' →
      Step o (.synthesis, s) (.quality, s')
  | quality_continue {s} :
      should_continue_research (quality_checker s) = "continue" →
      Step o (.quality, s) (.gapfiller, quality_checker s)
  | quality_end {s} :
      should_continue_research (quality_checker s) ≠ "continue" →
      Step o (.quality, s) (.done, quality_checker s)
  | gapfiller {s s'} : gap_filler o s = .ok s' →
      Step o (.gapfiller, s) (.searcher, s')

/-- A configuration is reachable in a run when the reflexive-transitive
closure of `Step` connects it to the entry point. -/
def Reachable (o : Oracles) (c c' : Node × ResearchState) : Prop :=
  Relation.ReflTransGen (Step o) c c'

/-- The Quality Gate decision rule as the spec states it (§4.7), for
comparison with the code's `quality_checker`/`should_continue_research`
composition.  The STOP of the spec is the routing string `"end"` and CONTINUE is
`"continue"`; the minimum character threshold is the code's 500. -/
def quality_gate_spec (s : ResearchState) : String :=
  if s.max_iterations ≤ s.iteration then "end"
  else if 3 ≤ s.web_summaries.length ∧
      (s.web_summaries ≠ [] ∧ s.reddit_summaries ≠ []) ∧
      500 < s.final_synthesis.length then "end"
  else "continue"

/-- C2: The Quality Gate decision — the conditional edge evaluated on the
state `quality_checker` produces — is exactly the precedence the spec states: cap
check first (STOP regardless of quality), then the three-part quality rule
(≥ 3 web summaries, both source lists non-empty, report longer than the
threshold), else CONTINUE. -/
theorem quality_gate_matches_spec (s : ResearchState) :
    should_continue_research (quality_checker s) = quality_gate_spec s := by
  unfold quality_gate_spec
  by_cases h1 : s.max_iterations ≤ s.iteration
  · rw [if_pos h1]
    have hqc : quality_checker s = { s with research_complete := true } := by
      simp only [quality_checker]
      rw [if_pos h1]
    rw [hqc]
    rfl
  · rw [if_neg h1]
    by_cases hb : (decide (3 ≤ s.web_summaries.length) &&
        (decide (0 < s.web_summaries.length) &&
          decide (0 < s.reddit_summaries.length)) &&
        decide (500 < s.final_synthesis.length)) = true
    · have hcond : 3 ≤ s.web_summaries.length ∧
          (s.web_summaries ≠ [] ∧ s.reddit_summaries ≠ []) ∧
          500 < s.final_synthesis.length := by
        simp only [Bool.and_eq_true, decide_eq_true_eq] at hb
        exact ⟨hb.1.1, ⟨List.length_pos.mp hb.1.2.1, List.length_pos.mp hb.1.2.2⟩,
          hb.2⟩
      rw [if_pos hcond]
      have hqc : quality_checker s = { s with research_complete := true } := by
        simp only [quality_checker]
        rw [if_neg h1, if_pos hb]
      rw [hqc]
      rfl
    · have hcond : ¬(3 ≤ s.web_summaries.length ∧
          (s.web_summaries ≠ [] ∧ s.reddit_summaries ≠ []) ∧
          500 < s.final_synthesis.length) := by
        intro hc
        apply hb
        simp only [Bool.and_eq_true, decide_eq_true_eq]
        exact ⟨⟨hc.1, List.length_pos.mpr hc.2.1.1, List.length_pos.mpr hc.2.1.2⟩,
          hc.2.2⟩
      rw [if_neg hcond]
      have hqc : quality_checker s = { s with research_complete := false } := by
        simp only [quality_checker]
        rw [if_neg h1, if_neg hb]
      rw [hqc]
      simp [should_continue_research, h1]

/-- C7: with no community summaries, `build_consensus` returns the neutral
default — neutral sentiment, unknown agreement level, empty theme list — and
issues zero consensus LLM calls (the call counter is 0), for every possible
behaviour of the underlying chat adapter. -/
theorem consensus_empty_returns_default_without_call
    (consensusChat : String → Except String (Option Consensus)) :
    build_consensus consensusChat [] =
      .ok ({ sentiment := "neutral", agreement_level := "unknown", themes := []
             majority_opinion := "", minority_opinions := [] }, 0) := rfl

/-- State-passing embedding of the body of `should_continue_research`: the source
function reads `research_complete`, `iteration` and `max_iterations` and
returns a routing string; its body contains no assignment into `state`, so
the state it leaves behind is its input, unchanged. -/
def decide_continue (s : ResearchState) : String × ResearchState :=
  let is_complete := s.research_complete
  let iteration := s.iteration
  let max_iterations := s.max_iterations
  (if is_complete then "end"
   else if max_iterations ≤ iteration then "end"
   else "continue", s)

/-- C8: the continuation decision is pure — identical states give identical
decisions, the input state comes back unmodified, and the decision agrees
with the pure one-place function `should_continue_research`. -/
theorem decide_continue_pure (s t : ResearchState) (h : s = t) :
    (decide_continue s).1 = (decide_continue t).1 ∧
      (decide_continue s).2 = s ∧
      (decide_continue s).1 = should_continue_research s :=
  ⟨by rw [h], rfl, rfl⟩

/-- Witness for `decide_continue_pure` at the default state. -/
theorem decide_continue_pure_witness :
    (decide_continue {}).1 = (decide_continue {}).1 ∧
      (decide_continue {}).2 = ({} : ResearchState) ∧
      (decide_continue {}).1 = should_continue_research {} :=
  decide_continue_pure {} {} rfl

/-- C10: `scrape_multiple` is positional and total — the output has the same
length as the input; slot `i` is the scrape result for `urls[i]`, or, when that
fetch raised, `_empty_result(urls[i], str(e))`; and the failure record has
`success = False`, the URL of that slot, empty content and the exception
message as its error. -/
theorem scrape_multiple_positional (netloc : String → String)
    (f : String → Except String ScrapedContent) (urls : List String) :
    (scrape_multiple netloc f urls).length = urls.length ∧
    (∀ (i : Nat) (u : String), urls[i]? = some u →
      (scrape_multiple netloc f urls)[i]? =
        some (match f u with
              | .ok r => r
              | .error e => emptyResult netloc u e)) ∧
    (∀ u e, (emptyResult netloc u e).success = false ∧
      (emptyResult netloc u e).url = u ∧
      (emptyResult netloc u e).content = "" ∧
      (emptyResult netloc u e).error = some e) := by
  refine ⟨by simp [scrape_multiple], ?_, fun u e => ⟨rfl, rfl, rfl, rfl⟩⟩
  intro i u hu
  simp [scrape_multiple, List.getElem?_map, hu]

/-- A concrete fetcher that raises on `"a"` and succeeds elsewhere. -/
def c10f : String → Except String ScrapedContent :=
  fun u => if u = "a" then .error "boom" else .ok { url := u }

/-- Witness for `scrape_multiple_positional`: on `["a", "b"]` with the fetch
of `"a"` raising, slot 0 is the failure record for `"a"` and slot 1 the
success record for `"b"`. -/
theorem scrape_multiple_positional_witness :
    (scrape_multiple (fun _ => "") c10f ["a", "b"])[0]? =
        some (emptyResult (fun _ => "") "a" "boom") ∧
      (scrape_multiple (fun _ => "") c10f ["a", "b"])[1]? =
        some { url := "b" } := by
  have h := scrape_multiple_positional (fun _ => "") c10f ["a", "b"]
  exact ⟨h.2.1 0 "a" rfl, h.2.1 1 "b" rfl⟩

/-- A concrete adapter environment where every search returns nothing, every
LLM response fails to parse (falling back on the source's defaults), the
summariser echoes its input and the synthesis call returns the empty
report. -/
def oEmpty : Oracles :=
  { planChat := fun _ => .ok none
    webSearch := fun _ _ => .ok []
    redditPostSearch := fun _ _ _ _ => .ok []
    redditCommentSearch := fun _ _ => .ok []
    discoverSubreddits := fun _ _ => .ok []
    netloc := fun _ => ""
    scrapeUrl := fun u => .ok { url := u }
    analyzeThread := fun _ _ => .ok {}
    summarizeChat := fun c => .ok c
    consensusChat := fun _ => .ok none
    extractExpertOpinions := fun _ => .ok []
    crossRefChat := fun _ _ => .ok none
    comprehensiveSynthesis := fun _ _ _ _ _ => .ok ""
    analyzeGaps := fun _ _ _ => .ok [] }

/-- A configuration with the iteration cap set to 1. -/
def cfg1 : ResearchConfig := { max_iterations := 1 }

/-- Unfolding lemma for `runLoop` when the conditional edge stops. -/
theorem runLoop_eq_stop {o : Oracles} {s s1 : ResearchState}
    (hr : roundBody o s = .ok s1)
    (hc : ¬ should_continue_research s1 = "continue") :
    runLoop o s = .ok (s1, 1) := by
  rw [runLoop.eq_def]
  split
  · rename_i e heq
    rw [hr] at heq
    exact Except.noConfusion heq
  · rename_i s1' heq
    rw [hr] at heq
    injection heq with heq
    subst heq
    rw [dif_neg hc]

/-- Unfolding lemma for `runLoop` when the conditional edge continues. -/
theorem runLoop_eq_continue {o : Oracles} {s s1 s2 : ResearchState}
    (hr : roundBody o s = .ok s1)
    (hc : should_continue_research s1 = "continue")
    (hg : gap_filler o s1 = .ok s2) :
    runLoop o s =
      match runLoop o s2 with
      | .error e => .error e
      | .ok (sf, n) => .ok (sf, n + 1) := by
  rw [runLoop.eq_def]
  split
  · rename_i e heq
    rw [hr] at heq
    exact Except.noConfusion heq
  · rename_i s1' heq
    rw [hr] at heq
    injection heq with heq
    subst heq
    rw [dif_pos hc]
    split
    · rename_i e heq2
      rw [hg] at heq2
      exact Except.noConfusion heq2
    · rename_i s2' heq2
      rw [hg] at heq2
      injection heq2 with heq2
      subst heq2
      rfl

/-- The control fields survive `query_planner`. -/
theorem query_planner_control {o : Oracles} {s s' : ResearchState}
    (h : query_planner o s = .ok s') :
    s'.iteration = s.iteration ∧ s'.max_iterations = s.max_iterations := by
  simp only [query_planner] at h
  split at h
  · exact Except.noConfusion h
  · injection h with h
    subst h
    exact ⟨rfl, rfl⟩

/-- State after `query_planner` in the `oEmpty`/`cfg1` run on query "q". -/
def c6_s1 : ResearchState :=
  { mkInitialState "q" cfg1 with
    research_plan := some
      { search_keywords := ["q"], needs_reddit := true
        suggested_subreddits := [], sub_questions := ["q"]
        research_approach := "comprehensive web and community search" }
    search_keywords := ["q"] }

/-- State after round 1 (through the quality checker) of that run. -/
def c6_r1 : ResearchState :=
  { c6_s1 with confidence_scores := { overall := "medium" } }

/-- State after `gap_filler` at the end of round 1 of that run. -/
def c6_s2 : ResearchState := { c6_r1 with iteration := 1 }

/-- Final state of that run: complete, with an empty final report. -/
def c6_final : ResearchState := { c6_s2 with research_complete := true }

/-- With all adapters returning nothing, a cap of 1 and the synthesis call
producing the empty string, the run completes normally after two rounds. -/
theorem run_research_oEmpty_eq :
    run_research oEmpty "q" cfg1 = .ok (c6_final, 2) := by
  have h0 : query_planner oEmpty (mkInitialState "q" cfg1) = .ok c6_s1 := rfl
  have hr1 : roundBody oEmpty c6_s1 = .ok c6_r1 := rfl
  have hc1 : should_continue_research c6_r1 = "continue" := rfl
  have hg1 : gap_filler oEmpty c6_r1 = .ok c6_s2 := rfl
  have hr2 : roundBody oEmpty c6_s2 = .ok c6_final := rfl
  have hstop : runLoop oEmpty c6_s2 = .ok (c6_final, 1) :=
    runLoop_eq_stop hr2 (by decide)
  have hloop : runLoop oEmpty c6_s1 = .ok (c6_final, 2) := by
    rw [runLoop_eq_continue hr1 hc1 hg1, hstop]
  simp only [run_research, h0, hloop]

/-- Round-count bound for the loop: starting with `iteration ≤
max_iterations`, a normally-returning loop executes at most
`max_iterations + 1 - iteration` rounds (each level of the recursion is one
round, and `gap_filler` raises `iteration` by one while it is still below
the cap). -/
theorem runLoop_rounds_le {o : Oracles} :
    ∀ (k : Nat) (s sf : ResearchState) (n : Nat),
      s.max_iterations + 1 - s.iteration ≤ k →
      s.iteration ≤ s.max_iterations →
      runLoop o s = .ok (sf, n) →
      n ≤ s.max_iterations + 1 - s.iteration := by
  intro k
  induction k with
  | zero =>
    intro s sf n hk hle _
    omega
  | succ k ih =>
    intro s sf n hk hle h
    rw [runLoop.eq_def] at h
    split at h
    · exact Except.noConfusion h
    · rename_i s1 hr
      split at h
      · rename_i hc
        split at h
        · exact Except.noConfusion h
        · rename_i s2 hg
          split at h
          · exact Except.noConfusion h
          · rename_i sf2 n2 hrec
            injection h with h
            obtain ⟨hsf, hn⟩ := Prod.mk.injEq _ _ _ _ ▸ h
            have hc' := (should_continue_iff s1).mp hc
            have hb := roundBody_control hr
            have hgf := gap_filler_control hg
            have hrec' := ih s2 sf2 n2 (by omega) (by omega) hrec
            omega
      · rename_i hc
        injection h with h
        obtain ⟨hsf, hn⟩ := Prod.mk.injEq _ _ _ _ ▸ h
        omega

/-- C1 (amended): every normally-returning run executes at most
`max_iterations + 1` rounds.  (The loop is entered with `iteration = 0` and
each pass increments `iteration` only while it is still below the cap.) -/
theorem run_research_rounds_bound (o : Oracles) (q : String)
    (cfg : ResearchConfig) (sf : ResearchState) (n : Nat)
    (h : run_research o q cfg = .ok (sf, n)) :
    n ≤ cfg.max_iterations + 1 := by
  unfold run_research at h
  split at h
  · exact Except.noConfusion h
  · rename_i s1 hp
    have hip := query_planner_control hp
    have h0 : (mkInitialState q cfg).iteration = 0 := rfl
    have hm : (mkInitialState q cfg).max_iterations = cfg.max_iterations := rfl
    have hb := runLoop_rounds_le (s1.max_iterations + 1 - s1.iteration) s1 sf n
      le_rfl (by omega) h
    omega

/-- Witness for `run_research_rounds_bound`: the concrete `oEmpty`/`cfg1` run
returns normally with 2 rounds, and 2 ≤ cap + 1. -/
theorem run_research_rounds_bound_witness : (2 : Nat) ≤ cfg1.max_iterations + 1 :=
  run_research_rounds_bound oEmpty "q" cfg1 c6_final 2 run_research_oEmpty_eq

/-- C1 (counterexample): with `iteration_cap = 1` and a gate whose quality
criteria are never satisfied (all sources empty), the engine performs 2 full
rounds, not 1 — it does not terminate within the number of rounds the cap names. -/
theorem run_exceeds_cap_counterexample :
    cfg1.max_iterations = 1 ∧
    run_research oEmpty "q" cfg1 = .ok (c6_final, 2) ∧
    ¬((2 : Nat) ≤ cfg1.max_iterations) :=
  ⟨rfl, run_research_oEmpty_eq, by decide⟩

/-- C6 (counterexample): a run can return normally, marked complete, with an
empty final report — nothing detects the empty synthesis string. -/
theorem run_completes_with_empty_report :
    run_research oEmpty "q" cfg1 = .ok (c6_final, 2) ∧
    c6_final.research_complete = true ∧
    c6_final.final_synthesis = "" :=
  ⟨run_research_oEmpty_eq, rfl, rfl⟩

/-- The synthesis-raising variant of the empty adapter environment. -/
def oErr : Oracles :=
  { oEmpty with comprehensiveSynthesis := fun _ _ _ _ _ => .error "boom" }

/-- C6 (amended): a raised generation error does surface — a round that
raises makes the whole loop (and hence `run_research`) re-raise it — but an
empty report string is not treated as a failure: the `oErr` run errors out
while the `oEmpty` run (same adapters, empty-string report) completes
normally. -/
theorem run_research_surfaces_raised_errors :
    (∀ (o : Oracles) (s : ResearchState) (e : String),
      roundBody o s = .error e → runLoop o s = .error e) ∧
    run_research oErr "q" cfg1 = .error "boom" ∧
    (∃ sf, run_research oEmpty "q" cfg1 = .ok (sf, 2) ∧
      sf.final_synthesis = "" ∧ sf.research_complete = true) := by
  have hprop : ∀ (o : Oracles) (s : ResearchState) (e : String),
      roundBody o s = .error e → runLoop o s = .error e := by
    intro o s e h
    rw [runLoop.eq_def]
    split
    · rename_i e' heq
      rw [h] at heq
      injection heq with heq
      subst heq
      rfl
    · rename_i s1 heq
      rw [h] at heq
      exact Except.noConfusion heq
  refine ⟨hprop, ?_, ⟨c6_final, run_research_oEmpty_eq, rfl, rfl⟩⟩
  have hp : query_planner oErr (mkInitialState "q" cfg1) = .ok c6_s1 := rfl
  have hr : roundBody oErr c6_s1 = .error "boom" := rfl
  have hl := hprop oErr c6_s1 "boom" hr
  simp only [run_research, hp, hl]

/-- Witness for `run_research_surfaces_raised_errors`: applying its first
component at the concrete erroring environment. -/
theorem run_research_surfaces_raised_errors_witness :
    runLoop oErr c6_s1 = .error "boom" :=
  run_research_surfaces_raised_errors.1 oErr c6_s1 "boom" rfl

/-- C9: in every configuration reachable from the entry point of a run
started with `iteration = 0` and cap `c ≥ 1`, the iteration counter stays
within the cap: `gap_filler` — the only step that increments it — fires only
behind a conditional edge that saw `iteration < max_iterations`. -/
theorem iteration_bounded_reachable (o : Oracles) (q : String)
    (cfg : ResearchConfig) (hcap : 1 ≤ cfg.max_iterations)
    (n : Node) (s : ResearchState)
    (h : Reachable o (Node.planner, mkInitialState q cfg) (n, s)) :
    s.iteration ≤ cfg.max_iterations := by
  have key : ∀ c : Node × ResearchState,
      Relation.ReflTransGen (Step o) (Node.planner, mkInitialState q cfg) c →
      c.2.max_iterations = cfg.max_iterations ∧
      c.2.iteration ≤ cfg.max_iterations ∧
      (c.1 = Node.gapfiller → c.2.iteration < cfg.max_iterations) := by
    intro c hc
    induction hc with
    | refl =>
      exact ⟨rfl, Nat.zero_le _, fun habs => Node.noConfusion habs⟩
    | tail hab hstep ih =>
      obtain ⟨ih1, ih2, ih3⟩ := ih
      cases hstep with
      | planner hp =>
        have hctl := query_planner_control hp
        dsimp only at ih1 ih2 ⊢
        exact ⟨by omega, by omega, fun habs => Node.noConfusion habs⟩
      | searcher =>
        rename_i st
        have hctl := multi_source_searcher_control o st
        dsimp only at ih1 ih2 ⊢
        exact ⟨by omega, by omega, fun habs => Node.noConfusion habs⟩
      | scraper =>
        rename_i st
        have hctl := content_scraper_control o st
        dsimp only at ih1 ih2 ⊢
        exact ⟨by omega, by omega, fun habs => Node.noConfusion habs⟩
      | analyzer =>
        rename_i st
        have hctl := content_analyzer_control o st
        dsimp only at ih1 ih2 ⊢
        exact ⟨by omega, by omega, fun habs => Node.noConfusion habs⟩
      | consensus hcb =>
        have hctl := consensus_builder_control hcb
        dsimp only at ih1 ih2 ⊢
        exact ⟨by omega, by omega, fun habs => Node.noConfusion habs⟩
      | crossref hcr =>
        have hctl := cross_reference_validator_control hcr
        dsimp only at ih1 ih2 ⊢
        exact ⟨by omega, by omega, fun habs => Node.noConfusion habs⟩
      | synthesis hsg =>
        have hctl := synthesis_generator_control hsg
        dsimp only at ih1 ih2 ⊢
        exact ⟨by omega, by omega, fun habs => Node.noConfusion habs⟩
      | quality_continue hq =>
        rename_i st
        have hq' := (should_continue_iff (quality_checker st)).mp hq
        have hctl := quality_checker_control st
        dsimp only at ih1 ih2 ⊢
        exact ⟨by omega, by omega, fun _ => by omega⟩
      | quality_end hq =>
        rename_i st
        have hctl := quality_checker_control st
        dsimp only at ih1 ih2 ⊢
        exact ⟨by omega, by omega, fun habs => Node.noConfusion habs⟩
      | gapfiller hg =>
        have hctl := gap_filler_control hg
        dsimp only at ih1 ih2 ih3 ⊢
        have hlt := ih3 rfl
        exact ⟨by omega, by omega, fun habs => Node.noConfusion habs⟩
  exact (key (n, s) h).2.1

/-- Witness for `iteration_bounded_reachable`: the state after the planner
step of the concrete `oEmpty`/`cfg1` run. -/
theorem iteration_bounded_reachable_witness :
    c6_s1.iteration ≤ cfg1.max_iterations :=
  iteration_bounded_reachable oEmpty "q" cfg1 (by decide) Node.searcher c6_s1
    (Relation.ReflTransGen.single (Step.planner rfl))

/-- Adapter environment whose gap-analysis call proposes two refinement
queries. -/
def oGaps : Oracles :=
  { oEmpty with analyzeGaps := fun _ _ _ => .ok ["g1", "g2"] }

/-- A round-1 state whose Retrieval keyword list is `["k1"]`. -/
def c3_state : ResearchState :=
  { mkInitialState "q" {} with search_keywords := ["k1"] }

/-- The state `gap_filler` hands to round 2 in that scenario. -/
def c3_state2 : ResearchState :=
  { c3_state with identified_gaps := ["g1", "g2"]
                  refinement_queries := ["g1", "g2"]
                  iteration := 1 }

/-- C3 (bug demonstration): the Gap-Filling stage stores its queries in
`refinement_queries` only; the keyword list Retrieval reads
(`search_keywords`, whose head is the queried keyword) is unchanged, so
the Retrieval input of round 2 is the round-1 keyword `"k1"`, not the gap-filling
output `["g1", "g2"]`. -/
theorem gap_filler_output_not_fed_to_retrieval :
    gap_filler oGaps c3_state = .ok c3_state2 ∧
    c3_state2.refinement_queries = ["g1", "g2"] ∧
    c3_state2.search_keywords = ["k1"] ∧
    primary_keyword c3_state2 = "k1" ∧
    ("k1" : String) ≠ "g1" :=
  ⟨rfl, rfl, rfl, rfl, by decide⟩

/-- One Reddit post returned by the healthy post-search adapter. -/
def c4_post : RedditPost := { title := "p", url := "u" }

/-- One Reddit comment returned by the healthy comment-search adapter. -/
def c4_comment : RedditComment := { body := "c", score := 1 }

/-- Adapter environment for a three-task Retrieval batch in which exactly
the web-search task raises. -/
def oC4 : Oracles :=
  { oEmpty with
    webSearch := fun _ _ => .error "boom"
    redditPostSearch := fun _ _ _ _ => .ok [c4_post]
    redditCommentSearch := fun _ _ => .ok [c4_comment] }

/-- A state with Reddit enabled and a known subreddit, so Retrieval launches
exactly three tasks (web search, post search, comment search). -/
def c4_state : ResearchState :=
  { mkInitialState "q" {} with relevant_subreddits := ["sub"] }

/-- C4 (counterexample): when one of the three Retrieval operations raises,
the failed slot is empty and the other two are populated — but the state's
error list receives no entry at all (it stays `[]`, not one entry). -/
theorem searcher_failure_appends_no_error :
    (multi_source_searcher oC4 c4_state).web_results = [] ∧
    (multi_source_searcher oC4 c4_state).reddit_posts = [c4_post] ∧
    (multi_source_searcher oC4 c4_state).reddit_comments = [c4_comment] ∧
    (multi_source_searcher oC4 c4_state).errors = [] ∧
    (multi_source_searcher oC4 c4_state).errors.length ≠ 1 :=
  ⟨rfl, rfl, rfl, rfl, by decide⟩

/-- C4 (amended): for every Retrieval fan-out batch, for every state and
adapter environment, whichever single launched operation raises — the web
search, the Reddit post search, the Reddit comment search, or the subreddit
discovery — while the other operations return values, the raising operation
degrades exactly its own slot to the empty list, every other slot receives
the value its operation returned, the stage returns normally — and no entry
is appended to the error list, which is left exactly as it was.  Each part
states its hypotheses on the very slot expressions the searcher evaluates
(Reddit-disabled or discovery-skipped slots are the constant `.ok []`, so
every batch shape is covered); a hypothesis that a slot raised is
satisfiable exactly when that operation is launched. -/
theorem searcher_degrades_failed_slot (o : Oracles) (s : ResearchState)
    (e : String) :
    (∀ (posts : List RedditPost) (comments : List RedditComment)
        (subs : List SubredditInfo),
      o.webSearch (primary_keyword s) s.research_config.max_web_results
        = .error e →
      (if s.research_config.include_reddit then
          o.redditPostSearch s.query
            (if s.relevant_subreddits.isEmpty then none
             else some s.relevant_subreddits)
            s.research_config.max_reddit_posts s.research_config.time_filter
        else .ok []) = .ok posts →
      (if s.research_config.include_reddit then
          o.redditCommentSearch s.query 30
        else .ok []) = .ok comments →
      (if s.research_config.include_reddit && s.relevant_subreddits.isEmpty then
          o.discoverSubreddits s.query 5
        else .ok []) = .ok subs →
      (multi_source_searcher o s).web_results = [] ∧
      (multi_source_searcher o s).reddit_posts = posts ∧
      (multi_source_searcher o s).reddit_comments = comments ∧
      (multi_source_searcher o s).errors = s.errors) ∧
    (∀ (web : List WebResult) (comments : List RedditComment)
        (subs : List SubredditInfo),
      o.webSearch (primary_keyword s) s.research_config.max_web_results
        = .ok web →
      (if s.research_config.include_reddit then
          o.redditPostSearch s.query
            (if s.relevant_subreddits.isEmpty then none
             else some s.relevant_subreddits)
            s.research_config.max_reddit_posts s.research_config.time_filter
        else .ok []) = .error e →
      (if s.research_config.include_reddit then
          o.redditCommentSearch s.query 30
        else .ok []) = .ok comments →
      (if s.research_config.include_reddit && s.relevant_subreddits.isEmpty then
          o.discoverSubreddits s.query 5
        else .ok []) = .ok subs →
      (multi_source_searcher o s).web_results = web ∧
      (multi_source_searcher o s).reddit_posts = [] ∧
      (multi_source_searcher o s).reddit_comments = comments ∧
      (multi_source_searcher o s).errors = s.errors) ∧
    (∀ (web : List WebResult) (posts : List RedditPost)
        (subs : List SubredditInfo),
      o.webSearch (primary_keyword s) s.research_config.max_web_results
        = .ok web →
      (if s.research_config.include_reddit then
          o.redditPostSearch s.query
            (if s.relevant_subreddits.isEmpty then none
             else some s.relevant_subreddits)
            s.research_config.max_reddit_posts s.research_config.time_filter
        else .ok []) = .ok posts →
      (if s.research_config.include_reddit then
          o.redditCommentSearch s.query 30
        else .ok []) = .error e →
      (if s.research_config.include_reddit && s.relevant_subreddits.isEmpty then
          o.discoverSubreddits s.query 5
        else .ok []) = .ok subs →
      (multi_source_searcher o s).web_results = web ∧
      (multi_source_searcher o s).reddit_posts = posts ∧
      (multi_source_searcher o s).reddit_comments = [] ∧
      (multi_source_searcher o s).errors = s.errors) ∧
    (∀ (web : List WebResult) (posts : List RedditPost)
        (comments : List RedditComment),
      o.webSearch (primary_keyword s) s.research_config.max_web_results
        = .ok web →
      (if s.research_config.include_reddit then
          o.redditPostSearch s.query
            (if s.relevant_subreddits.isEmpty then none
             else some s.relevant_subreddits)
            s.research_config.max_reddit_posts s.research_config.time_filter
        else .ok []) = .ok posts →
      (if s.research_config.include_reddit then
          o.redditCommentSearch s.query 30
        else .ok []) = .ok comments →
      (if s.research_config.include_reddit && s.relevant_subreddits.isEmpty then
          o.discoverSubreddits s.query 5
        else .ok []) = .error e →
      (multi_source_searcher o s).web_results = web ∧
      (multi_source_searcher o s).reddit_posts = posts ∧
      (multi_source_searcher o s).reddit_comments = comments ∧
      (multi_source_searcher o s).relevant_subreddits = s.relevant_subreddits ∧
      (multi_source_searcher o s).errors = s.errors) := by
  refine ⟨?_, ?_, ?_, ?_⟩
  · intro posts comments subs hweb hposts hcomments hsubs
    simp only [multi_source_searcher]
    rw [hweb, hposts, hcomments]
    simp [exceptToList]
  · intro web comments subs hweb hposts hcomments hsubs
    simp only [multi_source_searcher]
    rw [hweb, hposts, hcomments]
    simp [exceptToList]
  · intro web posts subs hweb hposts hcomments hsubs
    simp only [multi_source_searcher]
    rw [hweb, hposts, hcomments]
    simp [exceptToList]
  · intro web posts comments hweb hposts hcomments hsubs
    simp only [multi_source_searcher]
    rw [hweb, hposts, hcomments, hsubs]
    simp [exceptToList]

/-- Adapter environment for a batch in which exactly the Reddit post search
raises. -/
def oC4posts : Oracles :=
  { oEmpty with
    redditPostSearch := fun _ _ _ _ => .error "boom"
    redditCommentSearch := fun _ _ => .ok [c4_comment] }

/-- Witness for `searcher_degrades_failed_slot` at two concrete batches: one
in which the web search raises and one in which the post search raises. -/
theorem searcher_degrades_failed_slot_witness :
    ((multi_source_searcher oC4 c4_state).web_results = [] ∧
      (multi_source_searcher oC4 c4_state).reddit_posts = [c4_post] ∧
      (multi_source_searcher oC4 c4_state).reddit_comments = [c4_comment] ∧
      (multi_source_searcher oC4 c4_state).errors = c4_state.errors) ∧
    ((multi_source_searcher oC4posts c4_state).web_results = [] ∧
      (multi_source_searcher oC4posts c4_state).reddit_posts = [] ∧
      (multi_source_searcher oC4posts c4_state).reddit_comments
        = [c4_comment] ∧
      (multi_source_searcher oC4posts c4_state).errors = c4_state.errors) :=
  ⟨(searcher_degrades_failed_slot oC4 c4_state "boom").1
      [c4_post] [c4_comment] [] rfl rfl rfl rfl,
    (searcher_degrades_failed_slot oC4posts c4_state "boom").2.1
      [] [c4_comment] [] rfl rfl rfl rfl⟩

/-- A state holding two scraped pages, the first with empty content. -/
def c5_state : ResearchState :=
  { mkInitialState "q" {} with
    scraped_web_content :=
      [{ url := "urlA", title := "A", content := "" },
       { url := "urlB", title := "B", content := "bodyB" }] }

/-- C5 (bug demonstration): the only summarisation task is for the content of
page B (page A has empty content and is filtered out of the task list), yet
the produced summary is attributed to the title and URL of page A, because the result
loop indexes the unfiltered scraped list with the task index. -/
theorem analyzer_misattributes_on_empty_content :
    (content_analyzer oEmpty c5_state).web_summaries =
      [{ title := "A", url := "urlA", summary := "bodyB",
         source_type := "web" }] ∧
    (c5_state.scraped_web_content.getD 1 {}).content = "bodyB" ∧
    (c5_state.scraped_web_content.getD 1 {}).title = "B" ∧
    (c5_state.scraped_web_content.getD 1 {}).url = "urlB" ∧
    ("A" : String) ≠ "B" :=
  ⟨rfl, rfl, rfl, rfl, by decide⟩
